import Mathlib

/-!
Verification of the magnet generation-and-synchronization engine.

The definitions below are a shallow embedding of the code in
`src/magnet/Source/CmakeEmitter.cpp` (the `CmakeEmitter` class and the
`CommandHandler` command handlers).  The emitter writes to an output file
stream; we model the stream as the `String` accumulated so far, and every
emitter operation as a function that appends to that string.  Filesystem
state is modelled as a predicate `String → Bool` giving, for each path,
whether an entry exists at that path.  External tool invocations
(`std::system`) are modelled by an oracle `String → Bool` mapping a command
line to whether it exited with status 0.
-/

namespace Magnet

/-- The space character, used when splitting generated directives into
argument tokens. -/
def spaceChar : Char := Char.ofNat 32

/-- `MG_VERSION` from `Core.h`.  Modelled from the spec: the header block
names the tool version; `Core.h` is not part of the sources, and no claim
depends on the concrete value. -/
def MG_VERSION : String := "magnet-version"

/-! ### CmakeEmitter primitives

Each function mirrors one member of `CmakeEmitter`.  `CmakeEmitter::End()`
returns the newline character; every directive is terminated by it. -/

/-- `CmakeEmitter::Add_Literal`: raw text appended to the stream. -/
def add_Literal (literal : String) (s : String) : String := s ++ literal

/-- `CmakeEmitter::Add_Indentation`: `amount` tab characters. -/
def add_Indentation : Nat → String → String
  | 0, s => s
  | n + 1, s => add_Indentation n (s ++ "\t")

/-- `CmakeEmitter::Add_Newline`: `amount` newline characters (`End()`). -/
def add_Newline : Nat → String → String
  | 0, s => s
  | n + 1, s => add_Newline n (s ++ "\n")

/-- `CmakeEmitter::Add_Header`: the two header comment lines followed by a
blank line. -/
def add_Header (s : String) : String :=
  add_Newline 2 (add_Newline 1 (s ++ "# Generated by Magnet v" ++ MG_VERSION)
    ++ "# Do not edit this file since any changes will be overwritten next time the project files are regenerated.")

/-- `CmakeEmitter::Add_Comment`. -/
def add_Comment (comment : String) (s : String) : String :=
  s ++ "# " ++ comment ++ "\n"

/-- `CmakeEmitter::Add_If`: single-branch conditional; the deferred block
`lambda` is invoked exactly once between the `if(...)` line and the
`endif()` line. -/
def add_If (condition : String) (lambda : String → String) (s : String) : String :=
  lambda (s ++ "if(" ++ condition ++ ")" ++ "\n") ++ "endif()" ++ "\n"

/-- `CmakeEmitter::Add_IfElse`: two-branch conditional; `ifTrue` is invoked
once after the `if(...)` line, then `else()` is written, then `ifFalse` is
invoked once, then `endif()`. -/
def add_IfElse (condition : String) (ifTrue ifFalse : String → String) (s : String) : String :=
  ifFalse (ifTrue (s ++ "if(" ++ condition ++ ")" ++ "\n") ++ "else()" ++ "\n") ++ "endif()" ++ "\n"

/-- `CmakeEmitter::Add_CmakeMinimumRequired`. -/
def add_CmakeMinimumRequired (version : String) (s : String) : String :=
  s ++ "cmake_minimum_required(VERSION " ++ version ++ ")" ++ "\n"

/-- `CmakeEmitter::Add_Project`. -/
def add_Project (target : String) (s : String) : String :=
  s ++ "project(" ++ target ++ ")" ++ "\n"

/-- `CmakeEmitter::Add_SetCmakeCxxStandard` (takes an `int`). -/
def add_SetCmakeCxxStandard (value : Nat) (s : String) : String :=
  s ++ "set(CMAKE_CXX_STANDARD " ++ toString value ++ ")" ++ "\n"

/-- `CmakeEmitter::Add_SetCmakeArchiveOutputDirectory`. -/
def add_SetCmakeArchiveOutputDirectory (value : String) (s : String) : String :=
  s ++ "set(CMAKE_ARCHIVE_OUTPUT_DIRECTORY " ++ value ++ ")" ++ "\n"

/-- `CmakeEmitter::Add_SetCmakeLibraryOutputDirectory`. -/
def add_SetCmakeLibraryOutputDirectory (value : String) (s : String) : String :=
  s ++ "set(CMAKE_LIBRARY_OUTPUT_DIRECTORY " ++ value ++ ")" ++ "\n"

/-- `CmakeEmitter::Add_SetCmakeRuntimeOutputDirectory`. -/
def add_SetCmakeRuntimeOutputDirectory (value : String) (s : String) : String :=
  s ++ "set(CMAKE_RUNTIME_OUTPUT_DIRECTORY " ++ value ++ ")" ++ "\n"

/-- `CmakeEmitter::Add_SetTargetProperties`. -/
def add_SetTargetProperties (target property value : String) (s : String) : String :=
  s ++ "set_target_properties(" ++ target ++ " PROPERTIES " ++ property ++ " " ++ value ++ ")" ++ "\n"

/-- `CmakeEmitter::Add_AddSubdirectory` (single source). -/
def add_AddSubdirectory (source : String) (s : String) : String :=
  s ++ "add_subdirectory(" ++ source ++ ")" ++ "\n"

/-- `CmakeEmitter::Add_AddSubdirectory` (vector overload): one directive per
source, in order. -/
def add_AddSubdirectoryList (sources : List String) (s : String) : String :=
  sources.foldl (fun acc source => add_AddSubdirectory source acc) s

/-- `CmakeEmitter::Add_TargetIncludeDirectories` (single-shot form). -/
def add_TargetIncludeDirectories (target mode directory : String) (s : String) : String :=
  s ++ "target_include_directories(" ++ target ++ " " ++ mode ++ " " ++ directory ++ ")" ++ "\n"

/-- `CmakeEmitter::Begin_TargetIncludeDirectories`: opens the streaming
include-directory block (no closing parenthesis yet). -/
def begin_TargetIncludeDirectories (target mode : String) (s : String) : String :=
  s ++ "target_include_directories(" ++ target ++ " " ++ mode ++ "\n"

/-- `CmakeEmitter::End_TargetIncludeDirectories`: closes the streaming
block. -/
def end_TargetIncludeDirectories (s : String) : String :=
  s ++ ")" ++ "\n"

/-- The serialization of an argument list: every element prefixed by a
single space, in order.  This is the loop body shared by
`Add_TargetLinkLibraries`, `Add_AddExecutable` and `Add_AddLibrary`. -/
def spaceJoin : List String → String
  | [] => ""
  | x :: xs => " " ++ x ++ spaceJoin xs

/-- `CmakeEmitter::Add_TargetLinkLibraries`. -/
def add_TargetLinkLibraries (target : String) (libraries : List String) (s : String) : String :=
  s ++ "target_link_libraries(" ++ target ++ spaceJoin libraries ++ ")" ++ "\n"

/-- `CmakeEmitter::Add_AddExecutable`. -/
def add_AddExecutable (target : String) (sources : List String) (s : String) : String :=
  s ++ "add_executable(" ++ target ++ spaceJoin sources ++ ")" ++ "\n"

/-- `CmakeEmitter::Add_AddLibrary`. -/
def add_AddLibrary (target type : String) (sources : List String) (s : String) : String :=
  s ++ "add_library(" ++ target ++ " " ++ type ++ spaceJoin sources ++ ")" ++ "\n"

/-! ### Project data model

The `Project` class and the `Configuration` class live outside the provided
sources (only `CmakeEmitter.cpp` and the platform shim are under `src/`);
they are modelled from the spec where needed. -/

/-- Modelled from the spec: `binaryType` is one of
`Executable | StaticLibrary | DynamicLibrary` (§3); `Project::GetType` in
the sources compares against `ProjectType::Executable`. -/
inductive ProjectType where
  | Executable
  | StaticLibrary
  | DynamicLibrary
deriving DecidableEq, Repr

/-- Modelled from the spec: `Project::GetTypeString` yields the persisted
`projectType` representation of §6 (`Executable | StaticLibrary |
DynamicLibrary`), which `GenerateCMakeFiles` passes to `Add_AddLibrary` as
the library-kind string. -/
def ProjectType.typeString : ProjectType → String
  | .Executable => "Executable"
  | .StaticLibrary => "StaticLibrary"
  | .DynamicLibrary => "DynamicLibrary"

/-- Modelled from the spec (§3, §4.1): a configuration is `Debug` or
`Release`, with an explicit `Invalid` sentinel for unparseable input. -/
inductive Configuration where
  | Debug
  | Release
  | Invalid
deriving DecidableEq, Repr

/-- Modelled from the spec (§4.1 `ParseConfiguration`): case-sensitive match
against `{Debug, Release}`; any other text yields the `Invalid` sentinel,
never an error signal.  This is `Configuration::FromString`. -/
def Configuration.fromString (text : String) : Configuration :=
  if text = "Debug" then .Debug
  else if text = "Release" then .Release
  else .Invalid

/-- Modelled from the spec (§4.1): `IsValid` is false exactly on the
`Invalid` sentinel. -/
def Configuration.isValid : Configuration → Bool
  | .Invalid => false
  | _ => true

/-- Modelled from the spec: `Configuration::ToString`, the inverse
rendering used in log messages and the persisted document. -/
def Configuration.toDisplayString : Configuration → String
  | .Debug => "Debug"
  | .Release => "Release"
  | .Invalid => "Invalid"

/-- Modelled from the spec (§3 ProjectDescriptor): the fields of the
`Project` object that the generator reads (`GetName`, `GetCmakeVersion`,
`GetCppVersion`, `GetType`, `GetConfiguration`). -/
structure Project where
  name : String
  cmakeVersion : String
  cppVersion : Nat
  type : ProjectType
  configuration : Configuration
deriving DecidableEq, Repr

/-! ### Command-handler helpers from `CmakeEmitter.cpp` -/

/-- `CommandHandlerProps::GetArgument`: returns `""` when `index` is out of
range, otherwise the argument at `index`. -/
def getArgument (nextArguments : List String) (index : Nat) : String :=
  if h : nextArguments.length ≤ index then ""
  else nextArguments.get ⟨index, by omega⟩

/-- Index of the last occurrence of `c` in `cs` (the `List Char` analogue
of `std::string::find_last_of`), or `none` when absent. -/
def lastIndexOf (cs : List Char) (c : Char) : Option Nat :=
  match cs with
  | [] => none
  | x :: xs =>
    match lastIndexOf xs c with
    | some i => some (i + 1)
    | none => if x = c then some 0 else none

/-- `CommandHandler::ExtractRepositoryName`: take the substring after the
last `/` (`find_last_of('/') + 1`; the whole string when there is no `/`,
since `npos + 1 = 0`), then cut everything from that substring's last `.`
onward (`substr(0, find_last_of('.'))`; unchanged when there is no `.`). -/
def extractRepositoryName (url : String) : String :=
  let cs := url.data
  let name :=
    match lastIndexOf cs '/' with
    | some i => cs.drop (i + 1)
    | none => cs
  match lastIndexOf name '.' with
  | some j => String.mk (name.take j)
  | none => String.mk name

/-! ### The three generated files

`GenerateRootCMakeFile`, `GenerateCMakeFiles` and
`GenerateDependencyCMakeFiles` from `CmakeEmitter.cpp`, as pure functions
from the project descriptor, the dependency registry and the filesystem to
the contents of the file each writes.  The `RequireProjectName` guard at
the top of each runs before any emitter is constructed; the orchestration
model below performs it before calling these content functions. -/

/-- `CommandHandler::GenerateRootCMakeFile`: contents of the root
`CMakeLists.txt`. -/
def generateRootCMakeFile (p : Project) : String :=
  let s := add_Header ""
  let s := add_CmakeMinimumRequired p.cmakeVersion s
  let s := add_Project p.name s
  let s := add_Newline 1 s
  let s := add_SetCmakeCxxStandard p.cppVersion s
  let s := add_SetCmakeArchiveOutputDirectory "${PROJECT_SOURCE_DIR}/${PROJECT_NAME}/Binaries" s
  let s := add_SetCmakeLibraryOutputDirectory "${PROJECT_SOURCE_DIR}/${PROJECT_NAME}/Binaries" s
  let s := add_SetCmakeRuntimeOutputDirectory "${PROJECT_SOURCE_DIR}/${PROJECT_NAME}/Binaries" s
  let s := add_Newline 1 s
  let s := add_AddSubdirectory "${PROJECT_NAME}/Source" s
  let s := add_AddSubdirectory "${PROJECT_NAME}/Dependencies" s
  let s := add_Newline 1 s
  let s := add_TargetIncludeDirectories p.name "PUBLIC" "${PROJECT_SOURCE_DIR}/${PROJECT_NAME}/Source" s
  let s := add_Newline 1 s
  add_If "MSVC"
    (fun t =>
      add_Newline 1
        (add_Literal
          ("set_property(DIRECTORY ${CMAKE_CURRENT_SOURCE_DIR} PROPERTY VS_STARTUP_PROJECT " ++ p.name ++ ")")
          (add_Indentation 1 t)))
    s

/-- `CommandHandler::GenerateCMakeFiles`: contents of the source-target
`CMakeLists.txt`, given the discovered source-file list (bare filenames in
discovery order) and the dependency registry. -/
def generateCMakeFiles (p : Project) (sourceFiles : List String) (dependencies : List String) : String :=
  let s := add_Header ""
  let s := add_CmakeMinimumRequired p.cmakeVersion s
  let s := add_Project p.name s
  let s := add_SetCmakeCxxStandard p.cppVersion s
  let s :=
    if p.type = ProjectType.Executable then
      add_AddExecutable p.name sourceFiles s
    else
      add_AddLibrary p.name p.type.typeString sourceFiles s
  let s := add_Newline 1 s
  let s := add_Comment "Set rpath relative to app" s
  let s := add_IfElse "NOT MSVC"
    (fun t => add_SetTargetProperties p.name "LINK_FLAGS" "-Wl, -rpath, ./" t)
    (fun t => add_SetTargetProperties p.name "VS_DEBUGGER_WORKING_DIRECTORY"
      "${CMAKE_SOURCE_DIR}/${PROJECT_NAME}/Binaries/Debug" t)
    s
  let s := add_Newline 1 s
  let s := add_Comment "Precompiled headers" s
  let s := add_Comment "target_precompile_headers(${PROJECT_NAME} PUBLIC PCH.h)" s
  let s := add_Newline 1 s
  if dependencies.isEmpty then s
  else add_TargetLinkLibraries p.name dependencies s

/-- One iteration of the per-dependency loop inside
`GenerateDependencyCMakeFiles`: a dependency whose directory does not
exist is skipped (`continue`); otherwise its quoted path is emitted, with
`/include` appended exactly when `packagePath / "include"` exists on
disk. -/
def depIncludeStep (projectName : String) (fs : String → Bool) (acc package : String) : String :=
  let packagePath := projectName ++ "/Dependencies/" ++ package
  if fs packagePath = false then acc
  else
    add_Newline 1
      (add_Literal "\""
        ((if fs (packagePath ++ "/include") then add_Literal "/include" else id)
          (add_Literal package (add_Literal "\"" (add_Indentation 1 acc)))))

/-- The per-dependency loop inside `GenerateDependencyCMakeFiles`. -/
def depIncludeLoop (projectName : String) (fs : String → Bool) (dependencies : List String)
    (s : String) : String :=
  dependencies.foldl (depIncludeStep projectName fs) s

/-- `CommandHandler::GenerateDependencyCMakeFiles`: contents of the
dependency-aggregation `CMakeLists.txt`, given the registry and the
filesystem predicate. -/
def generateDependencyCMakeFiles (p : Project) (dependencies : List String)
    (fs : String → Bool) : String :=
  let s := add_Header ""
  let s := add_CmakeMinimumRequired p.cmakeVersion s
  let s := add_Project p.name s
  let s := add_Newline 1 s
  if dependencies.isEmpty then s
  else
    let s := add_AddSubdirectoryList dependencies s
    let s := add_Newline 1 s
    let s := begin_TargetIncludeDirectories p.name "PUBLIC" s
    let s := depIncludeLoop p.name fs dependencies s
    end_TargetIncludeDirectories s

/-! ### The generate command (`CommandHandler::HandleGenerateCommand`) -/

/-- Outcome of `HandleGenerateCommand`.  The handler returns early (writing
no file) when not at the project root, when the project name is unknown, or
when declared dependencies are missing; otherwise it writes the three
generated files.  The `missingDeps` constructor carries the dependency
names reported by the `"Missing dependency: ..."` log lines, in registry
order. -/
inductive GenerateOutcome where
  | notRoot
  | noProjectName
  | missingDeps (missing : List String)
  | generated (root sourceTarget depAggregation : String)
deriving DecidableEq, Repr

/-- `true` exactly when the outcome wrote the three generated files. -/
def GenerateOutcome.wroteFiles : GenerateOutcome → Bool
  | .generated _ _ _ => true
  | _ => false

/-- `CommandHandler::HandleGenerateCommand`: the missing-dependency gate
runs only when the dependency directory itself exists
(`std::filesystem::exists(dependenciesPath)`); each declared dependency
whose directory is absent is reported; any missing dependency aborts
generation before any file is written. -/
def handleGenerateCommand (isRoot : Bool) (p : Project) (dependencies : List String)
    (fs : String → Bool) (sourceFiles : List String) : GenerateOutcome :=
  if isRoot = false then .notRoot
  else if p.name = "" then .noProjectName
  else
    let dependenciesPath := p.name ++ "/Dependencies"
    let missing :=
      if fs dependenciesPath then
        dependencies.filter (fun package => !fs (dependenciesPath ++ "/" ++ package))
      else []
    if missing.isEmpty = false then .missingDeps missing
    else
      .generated (generateRootCMakeFile p) (generateCMakeFiles p sourceFiles dependencies)
        (generateDependencyCMakeFiles p dependencies fs)

/-! ### Dependency-mutating commands as effect traces

Each handler is modelled as the ordered list of its observable effects:
external commands run (with their exit status from the oracle `exec`),
registry documents persisted by `WriteDependencyFile`, invocations of the
generation workflow, and log lines. -/

/-- One observable effect of a command handler. -/
inductive Effect where
  | ranCommand (cmd : String) (ok : Bool)
  | wroteRegistry (dependencies : List String)
  | invokedGenerate
  | logged (message : String)
deriving DecidableEq, Repr

/-- `true` on an external command effect that exited non-zero. -/
def Effect.isFailedCmd : Effect → Bool
  | .ranCommand _ false => true
  | _ => false

/-- `true` on a registry persistence effect. -/
def Effect.isRegistryWrite : Effect → Bool
  | .wroteRegistry _ => true
  | _ => false

/-- `true` on an invocation of the generation workflow. -/
def Effect.isGenerate : Effect → Bool
  | .invokedGenerate => true
  | _ => false

/-- The registry documents persisted during a trace, in order. -/
def registryWrites (trace : List Effect) : List (List String) :=
  trace.filterMap fun e =>
    match e with
    | .wroteRegistry d => some d
    | _ => none

/-- `CommandHandler::HandlePullCommand`: with no argument, `git submodule
update` over all dependencies (install-all); with a URL argument
(prefixed with `https://github.com/` when not already an `https://` URL),
`git submodule add`, then the registry is persisted with the extracted
name appended, then generation is invoked.  Any failing external command
returns immediately. -/
def handlePullCommand (args : List String) (projectName : String)
    (dependencies : List String) (exec : String → Bool) : List Effect :=
  let nextArgument := getArgument args 0
  if nextArgument = "" then
    let command := "git submodule update --init --recursive"
    if exec command = false then
      [.ranCommand command false,
       .logged "Failed to install dependencies. See messages above for more information."]
    else
      [.ranCommand command true, .logged "Successfully installed all dependencies.",
       .invokedGenerate]
  else if projectName = "" then
    [.logged "Command failed due to unknown project name."]
  else if nextArgument = "--list" then
    if dependencies.isEmpty then [.logged "No dependencies installed."]
    else .logged "Here are all the installed dependencies:" :: dependencies.map .logged
  else if nextArgument = "--help" then
    [.logged "Usage: magnet pull <url>", .logged "       magnet pull --list"]
  else
    let url :=
      if "https://".data.isPrefixOf nextArgument.data then nextArgument
      else "https://github.com/" ++ nextArgument
    let name := extractRepositoryName url
    let installPath := projectName ++ "/Dependencies/" ++ name
    let command := "git submodule add " ++ url ++ " " ++ installPath
    if exec command = false then
      [.ranCommand command false,
       .logged "Failed to install dependency. See messages above for more information."]
    else
      [.ranCommand command true, .wroteRegistry (dependencies ++ [name]),
       .logged ("Installed new dependency: " ++ name), .invokedGenerate]

/-- `CommandHandler::HandleRemoveCommand`: three external git steps run in
sequence; any failure returns immediately; on success the registry is
persisted with every occurrence of the dependency erased
(`std::remove` + `erase`), then generation is invoked. -/
def handleRemoveCommand (args : List String) (projectName : String)
    (dependencies : List String) (exec : String → Bool) : List Effect :=
  let dependency := getArgument args 0
  if dependency = "" then
    [.logged "Usage: magnet remove <dependency>"]
  else if projectName = "" then
    [.logged "Command failed due to unknown project name."]
  else
    let installPath := projectName ++ "/Dependencies/" ++ dependency
    let deinitCommand := "git submodule deinit -f " ++ installPath
    if exec deinitCommand = false then
      [.ranCommand deinitCommand false,
       .logged "Failed to remove dependency. See messages above for more information."]
    else
      let gitRemoveCommand := "git rm -f " ++ installPath
      if exec gitRemoveCommand = false then
        [.ranCommand deinitCommand true, .ranCommand gitRemoveCommand false,
         .logged "Failed to remove dependency. See messages above for more information."]
      else
        let removeGitModuleCommand := "rm -rf .git/modules/" ++ installPath
        if exec removeGitModuleCommand = false then
          [.ranCommand deinitCommand true, .ranCommand gitRemoveCommand true,
           .ranCommand removeGitModuleCommand false,
           .logged "Failed to remove dependency. See messages above for more information."]
        else
          [.ranCommand deinitCommand true, .ranCommand gitRemoveCommand true,
           .ranCommand removeGitModuleCommand true,
           .wroteRegistry (dependencies.filter (fun d => d != dependency)),
           .logged ("Removed dependency: " ++ dependency), .invokedGenerate]

/-- `CommandHandler::HandleSwitchCommand`: two external git steps; any
failure returns immediately; the registry is never written; on success
generation is invoked. -/
def handleSwitchCommand (args : List String) (projectName : String)
    (exec : String → Bool) : List Effect :=
  let dependency := getArgument args 0
  let branch := getArgument args 1
  if dependency = "" ∨ branch = "" then
    [.logged "Usage: magnet switch <dependency> <branch>"]
  else if projectName = "" then
    [.logged "Command failed due to unknown project name."]
  else
    let installPath := projectName ++ "/Dependencies/" ++ dependency
    let command := "git -C " ++ installPath ++ " checkout " ++ branch
    if exec command = false then
      [.ranCommand command false,
       .logged "Failed to switch dependency branch. See messages above for more information."]
    else
      let gitAddCommand := "git add " ++ installPath
      if exec gitAddCommand = false then
        [.ranCommand command true, .ranCommand gitAddCommand false,
         .logged "Failed to switch dependency branch. See messages above for more information."]
      else
        [.ranCommand command true, .ranCommand gitAddCommand true,
         .logged ("Switched " ++ dependency ++ " branch to: " ++ branch), .invokedGenerate]

/-- `CommandHandler::HandleConfigCommand`: parses the argument and calls
`Application::SetDefaultConfiguration` (modelled from the spec as storing
the given configuration in the process-wide default-configuration holder,
§9) before checking `IsValid()`.  Returns the stored configuration after
the call together with the log lines. -/
def handleConfigCommand (args : List String) (stored : Configuration) :
    Configuration × List String :=
  let nextArgument := getArgument args 0
  if nextArgument = "" then
    (stored, ["Usage: magnet config <configuration>"])
  else
    let configuration := Configuration.fromString nextArgument
    if configuration.isValid = false then
      (configuration, ["Usage: magnet config [Debug/Release]"])
    else
      (configuration,
       ["Successfully changed default configuration to " ++
        configuration.toDisplayString ++ "."])

/-- Modelled from the spec's words (§4.4 item 3), for comparison with
`generateDependencyCMakeFiles`: "a subdirectory-inclusion directive per
dependency followed by a single streaming include-directory block
enumerating each dependency's path, appending an `/include` suffix only if
such a subdirectory actually exists on disk".  Every declared dependency
is enumerated in the include block: one quoted, tab-indented path line per
dependency, `/include` appended iff the include subdirectory exists. -/
def claimedIncludeStep (projectName : String) (fs : String → Bool) (acc package : String) : String :=
  let packagePath := projectName ++ "/Dependencies/" ++ package
  acc ++ "\t" ++ "\"" ++ package ++
    (if fs (packagePath ++ "/include") then "/include" else "") ++ "\"" ++ "\n"

/-- Modelled from the spec's words (§4.4 item 3), for comparison with
`generateDependencyCMakeFiles`: the dependency-aggregation file with a
subdirectory-inclusion directive per dependency and a streaming
include-directory block enumerating every declared dependency's path. -/
def claimedDependencyCMakeFiles (p : Project) (dependencies : List String)
    (fs : String → Bool) : String :=
  let s := add_Header ""
  let s := add_CmakeMinimumRequired p.cmakeVersion s
  let s := add_Project p.name s
  let s := add_Newline 1 s
  if dependencies.isEmpty then s
  else
    let s := add_AddSubdirectoryList dependencies s
    let s := add_Newline 1 s
    let s := begin_TargetIncludeDirectories p.name "PUBLIC" s
    let s := dependencies.foldl (claimedIncludeStep p.name fs) s
    end_TargetIncludeDirectories s

/-- The three files produced by one generation call, as a function of the
descriptor, the discovered source list, the registry and the filesystem. -/
def generateAllFiles (p : Project) (sourceFiles dependencies : List String)
    (fs : String → Bool) : String × String × String :=
  (generateRootCMakeFile p, generateCMakeFiles p sourceFiles dependencies,
   generateDependencyCMakeFiles p dependencies fs)
/-- The part of the source-target file emitted before the target
declaration: header, minimum-version, project declaration,
language-standard variable. -/
def sourceTargetPre (p : Project) : String :=
  add_SetCmakeCxxStandard p.cppVersion
    (add_Project p.name (add_CmakeMinimumRequired p.cmakeVersion (add_Header "")))

/-- The part of the source-target file emitted after the target
declaration: rpath/debugger conditional, precompiled-header placeholder
comments, and — when the registry is non-empty — the link-libraries
directive. -/
def sourceTargetPost (p : Project) (dependencies : List String) : String :=
  let s := add_Newline 1 ""
  let s := add_Comment "Set rpath relative to app" s
  let s := add_IfElse "NOT MSVC"
    (fun t => add_SetTargetProperties p.name "LINK_FLAGS" "-Wl, -rpath, ./" t)
    (fun t => add_SetTargetProperties p.name "VS_DEBUGGER_WORKING_DIRECTORY"
      "${CMAKE_SOURCE_DIR}/${PROJECT_NAME}/Binaries/Debug" t)
    s
  let s := add_Newline 1 s
  let s := add_Comment "Precompiled headers" s
  let s := add_Comment "target_precompile_headers(${PROJECT_NAME} PUBLIC PCH.h)" s
  let s := add_Newline 1 s
  if dependencies.isEmpty then s
  else add_TargetLinkLibraries p.name dependencies s

/-! ### Tokenizing generated directives

To state that a target declaration lists its arguments exactly once and in
order, we split the argument region of the directive back into its
space-separated tokens and compare with the original list. -/

/-- Accumulator form of the tokenizer: `cur` holds the current (reversed)
run of non-space characters. -/
def tokenizeAux (cur : List Char) : List Char → List (List Char)
  | [] => if cur = [] then [] else [cur.reverse]
  | c :: rest =>
    if c = spaceChar then
      if cur = [] then tokenizeAux [] rest
      else cur.reverse :: tokenizeAux [] rest
    else tokenizeAux (c :: cur) rest

/-- Split a character list into its maximal runs of non-space characters,
discarding the spaces. -/
def tokenize (cs : List Char) : List (List Char) := tokenizeAux [] cs

/-- Leading spaces are discarded. -/
theorem tokenize_space (cs : List Char) : tokenize (spaceChar :: cs) = tokenize cs := by
  simp [tokenize, tokenizeAux]

/-- Scanning a space-free run pushes it onto the accumulator. -/
theorem tokenizeAux_run (w : List Char) :
    ∀ cur cs, (∀ a ∈ w, a ≠ spaceChar) →
      tokenizeAux cur (w ++ cs) = tokenizeAux (w.reverse ++ cur) cs := by
  induction w with
  | nil => intro cur cs _; rfl
  | cons c w' ih =>
    intro cur cs hw
    have hc : c ≠ spaceChar := hw c (List.mem_cons_self _ _)
    rw [List.cons_append]
    show tokenizeAux cur (c :: (w' ++ cs)) = _
    rw [tokenizeAux, if_neg hc,
      ih (c :: cur) cs (fun a ha => hw a (List.mem_cons_of_mem _ ha))]
    congr 1
    simp

/-- Flushing a non-empty accumulator at a space or at the end of input. -/
theorem tokenizeAux_flush (cur cs : List Char) (hcur : cur ≠ [])
    (hcs : cs = [] ∨ cs.head? = some spaceChar) :
    tokenizeAux cur cs = cur.reverse :: tokenizeAux [] cs := by
  rcases hcs with h | h
  · subst h
    simp [tokenizeAux, hcur]
  · cases cs with
    | nil => simp at h
    | cons d cs' =>
      simp only [List.head?_cons, Option.some.injEq] at h
      subst h
      rw [tokenizeAux, if_pos rfl, if_neg hcur]
      rw [show tokenizeAux [] (spaceChar :: cs') = tokenizeAux [] cs' by
        rw [tokenizeAux, if_pos rfl, if_pos rfl]]

/-- A maximal non-space run followed by a space (or the end of input) is
one token. -/
theorem tokenize_token (w cs : List Char) (hne : w ≠ [])
    (hw : ∀ a ∈ w, a ≠ spaceChar) (hcs : cs = [] ∨ cs.head? = some spaceChar) :
    tokenize (w ++ cs) = w :: tokenize cs := by
  show tokenizeAux [] (w ++ cs) = _
  rw [tokenizeAux_run w [] cs hw, List.append_nil,
    tokenizeAux_flush w.reverse cs (by simpa using hne) hcs, List.reverse_reverse]
  rfl

/-- The data of `" "`. -/
theorem space_string_data : (" " : String).data = [spaceChar] := by decide

/-- The data of a space-joined list, cons form. -/
theorem spaceJoin_cons_data (f : String) (t : List String) :
    (spaceJoin (f :: t)).data = spaceChar :: (f.data ++ (spaceJoin t).data) := by
  show ((" " ++ f ++ spaceJoin t)).data = _
  simp [space_string_data]
  try decide

/-- The data of a space-joined list is empty or starts with a space. -/
theorem spaceJoin_data_head (files : List String) :
    (spaceJoin files).data = [] ∨ (spaceJoin files).data.head? = some spaceChar := by
  cases files with
  | nil => left; rfl
  | cons f t => right; rw [spaceJoin_cons_data]; rfl

/-- Tokenizing a space-joined list of space-free, non-empty names recovers
exactly the original list: each name once, in order. -/
theorem tokenize_spaceJoin (files : List String)
    (hfiles : ∀ f ∈ files, f.data ≠ [] ∧ ∀ a ∈ f.data, a ≠ spaceChar) :
    tokenize (spaceJoin files).data = files.map String.data := by
  induction files with
  | nil => rfl
  | cons f t ih =>
    rw [spaceJoin_cons_data, tokenize_space,
      tokenize_token f.data (spaceJoin t).data
        (hfiles f (List.mem_cons_self _ _)).1
        (hfiles f (List.mem_cons_self _ _)).2
        (spaceJoin_data_head t),
      ih (fun g hg => hfiles g (List.mem_cons_of_mem _ hg))]
    rfl

/-- Tokenizing the argument region `name ++ " " ++ kind ++ spaceJoin files`
of a library target declaration yields the name, the kind, then each file
once in order. -/
theorem tokenize_libraryArgs (name kind : String) (files : List String)
    (hname : name.data ≠ [] ∧ ∀ a ∈ name.data, a ≠ spaceChar)
    (hkind : kind.data ≠ [] ∧ ∀ a ∈ kind.data, a ≠ spaceChar)
    (hfiles : ∀ f ∈ files, f.data ≠ [] ∧ ∀ a ∈ f.data, a ≠ spaceChar) :
    tokenize (name ++ " " ++ kind ++ spaceJoin files).data =
      name.data :: kind.data :: files.map String.data := by
  have hdata : (name ++ " " ++ kind ++ spaceJoin files).data =
      name.data ++ (spaceChar :: (kind.data ++ (spaceJoin files).data)) := by
    simp [space_string_data]
    try decide
  rw [hdata,
    tokenize_token name.data _ hname.1 hname.2 (by right; rfl),
    tokenize_space,
    tokenize_token kind.data _ hkind.1 hkind.2 (spaceJoin_data_head files),
    tokenize_spaceJoin files hfiles]

/-! ### Lemmas about `lastIndexOf` and `extractRepositoryName` -/

/-- A character absent from the list has no last index. -/
theorem lastIndexOf_of_not_mem (cs : List Char) (c : Char) (h : c ∉ cs) :
    lastIndexOf cs c = none := by
  induction cs with
  | nil => rfl
  | cons x xs ih =>
    have hx : ¬(x = c) := fun he => h (he ▸ List.mem_cons_self x xs)
    simp [lastIndexOf, ih (fun hm => h (List.mem_cons_of_mem _ hm)), hx]

/-- The last index of `c` in `a ++ c :: b` is `a.length` when `c` does not
occur in `b`. -/
theorem lastIndexOf_append (a b : List Char) (c : Char) (hb : c ∉ b) :
    lastIndexOf (a ++ c :: b) c = some a.length := by
  induction a with
  | nil => simp [lastIndexOf, lastIndexOf_of_not_mem b c hb]
  | cons x t ih => simp [lastIndexOf, ih]

/-- The data of `"/"`. -/
theorem slash_string_data : ("/" : String).data = ['/'] := by decide

/-- The data of `"."`. -/
theorem dot_string_data : ("." : String).data = ['.'] := by decide

/-- `ExtractRepositoryName` on a URL whose final segment has no dot: the
whole final segment is returned. -/
theorem extractRepositoryName_no_dot (a b : String)
    (hb1 : '/' ∉ b.data) (hb2 : '.' ∉ b.data) :
    extractRepositoryName (a ++ "/" ++ b) = b := by
  unfold extractRepositoryName
  have hdata : (a ++ "/" ++ b).data = a.data ++ '/' :: b.data := by
    simp [slash_string_data]
  rw [hdata]
  dsimp only
  rw [lastIndexOf_append a.data b.data '/' hb1]
  have hsplit : a.data ++ '/' :: b.data = (a.data ++ ['/']) ++ b.data := by simp
  rw [hsplit]
  dsimp only
  rw [List.drop_left' (by simp), lastIndexOf_of_not_mem b.data '.' hb2]

/-- `ExtractRepositoryName` on a URL whose final segment contains a dot:
everything from the final segment's last dot onward is removed, so a
repository name containing a dot is truncated at its last dot. -/
theorem extractRepositoryName_trunc (a b c : String)
    (hb : '/' ∉ b.data) (hc1 : '/' ∉ c.data) (hc2 : '.' ∉ c.data) :
    extractRepositoryName (a ++ "/" ++ b ++ "." ++ c) = b := by
  unfold extractRepositoryName
  have hdata : (a ++ "/" ++ b ++ "." ++ c).data =
      a.data ++ '/' :: (b.data ++ '.' :: c.data) := by
    simp [slash_string_data, dot_string_data]
  have hnoslash : '/' ∉ b.data ++ '.' :: c.data := by
    intro hmem
    rcases List.mem_append.mp hmem with h | h
    · exact hb h
    · rcases List.mem_cons.mp h with h | h
      · exact absurd h (by decide)
      · exact hc1 h
  rw [hdata]
  dsimp only
  rw [lastIndexOf_append a.data _ '/' hnoslash]
  have hsplit : a.data ++ '/' :: (b.data ++ '.' :: c.data) =
      (a.data ++ ['/']) ++ (b.data ++ '.' :: c.data) := by simp
  rw [hsplit]
  dsimp only
  rw [List.drop_left' (by simp),
    lastIndexOf_append b.data c.data '.' hc2]
  dsimp only
  rw [List.take_left' rfl]

/-! ### Helper: the successful install trace -/

/-- On a full `https://` URL with a known project name and a succeeding
`git submodule add`, `HandlePullCommand` runs the command, persists the
registry with the extracted name appended, logs, and invokes generation. -/
theorem handlePull_success_trace (url pn : String) (deps : List String)
    (exec : String → Bool) (hurl : "https://".data.isPrefixOf url.data = true) (hpn : pn ≠ "")
    (hexec : exec ("git submodule add " ++ url ++ " " ++
      (pn ++ "/Dependencies/" ++ extractRepositoryName url)) = true) :
    handlePullCommand [url] pn deps exec =
      [.ranCommand ("git submodule add " ++ url ++ " " ++
         (pn ++ "/Dependencies/" ++ extractRepositoryName url)) true,
       .wroteRegistry (deps ++ [extractRepositoryName url]),
       .logged ("Installed new dependency: " ++ extractRepositoryName url),
       .invokedGenerate] := by
  have h1 : url ≠ "" := by
    intro h
    rw [h] at hurl
    exact absurd hurl (by decide)
  have h2 : url ≠ "--list" := by
    intro h
    rw [h] at hurl
    exact absurd hurl (by decide)
  have h3 : url ≠ "--help" := by
    intro h
    rw [h] at hurl
    exact absurd hurl (by decide)
  simp [handlePullCommand, getArgument, h1, h2, h3, hpn, hurl, hexec]

/-! ### Claim theorems -/

/-- C9: `CommandHandlerProps::GetArgument` is total: an index at or past
the end of the remaining-argument list yields the empty string, and an
in-range index yields the argument at that index. -/
theorem c9_getArgument_total : ∀ (args : List String) (index : Nat),
    (args.length ≤ index → getArgument args index = "") ∧
    ∀ h : index < args.length, getArgument args index = args.get ⟨index, h⟩ := by
  intro args index
  constructor
  · intro h
    simp [getArgument, h]
  · intro h
    have h' : ¬ args.length ≤ index := Nat.not_le.mpr h
    simp [getArgument, h']

/-- Witness for C9 at concrete inputs. -/
theorem c9_getArgument_total_witness :
    getArgument ["alpha", "beta"] 5 = "" ∧
    getArgument ["alpha", "beta"] 1 = (["alpha", "beta"] : List String).get ⟨1, by decide⟩ :=
  ⟨(c9_getArgument_total ["alpha", "beta"] 5).1 (by decide),
   (c9_getArgument_total ["alpha", "beta"] 1).2 (by decide)⟩

/-- C10: the dependency name recorded by the install command is the URL
segment after the last `/`, with everything from that segment's last `.`
onward removed (the whole segment when it has no dot); in particular a
repository name containing a dot is truncated at its last dot; and the
registry document persisted by a successful install appends exactly that
name. -/
theorem c10_extracted_name_spec :
    (∀ a b : String, '/' ∉ b.data → '.' ∉ b.data →
      extractRepositoryName (a ++ "/" ++ b) = b) ∧
    (∀ a b c : String, '/' ∉ b.data → '/' ∉ c.data → '.' ∉ c.data →
      extractRepositoryName (a ++ "/" ++ b ++ "." ++ c) = b) ∧
    (∀ (url pn : String) (deps : List String) (exec : String → Bool),
      "https://".data.isPrefixOf url.data = true → pn ≠ "" →
      exec ("git submodule add " ++ url ++ " " ++
        (pn ++ "/Dependencies/" ++ extractRepositoryName url)) = true →
      registryWrites (handlePullCommand [url] pn deps exec) =
        [deps ++ [extractRepositoryName url]]) := by
  refine ⟨extractRepositoryName_no_dot, extractRepositoryName_trunc, ?_⟩
  intro url pn deps exec hurl hpn hexec
  rw [handlePull_success_trace url pn deps exec hurl hpn hexec]
  rfl

/-- Witness for C10 at concrete inputs, including a dotted repository
name. -/
theorem c10_extracted_name_spec_witness :
    extractRepositoryName ("https://github.com/u" ++ "/" ++ "magnet") = "magnet" ∧
    extractRepositoryName ("https://github.com/u" ++ "/" ++ "magnet" ++ "." ++ "git") = "magnet" ∧
    registryWrites (handlePullCommand ["https://u/magnet.git"] "App" ["zlib"] (fun _ => true)) =
      [["zlib"] ++ [extractRepositoryName "https://u/magnet.git"]] :=
  ⟨c10_extracted_name_spec.1 "https://github.com/u" "magnet" (by decide) (by decide),
   c10_extracted_name_spec.2.1 "https://github.com/u" "magnet" "git"
     (by decide) (by decide) (by decide),
   c10_extracted_name_spec.2.2 "https://u/magnet.git" "App" ["zlib"] (fun _ => true)
     (by decide) (by decide) rfl⟩

/-- C4 (code bug): `HandleConfigCommand` calls
`Application::SetDefaultConfiguration` with the parsed configuration
*before* checking `IsValid()`, so an invalid (non-empty) configuration
string such as `"debug"` overwrites the stored default configuration with
the `Invalid` sentinel even though only a usage message is logged — the
command does not return free of side effects as the spec claims. -/
theorem c4_config_invalid_input_mutates_default :
    (handleConfigCommand ["debug"] Configuration.Debug).fst = Configuration.Invalid ∧
    (handleConfigCommand ["debug"] Configuration.Debug).snd =
      ["Usage: magnet config [Debug/Release]"] ∧
    Configuration.Invalid ≠ Configuration.Debug := by
  decide

/-- C5: `Add_IfElse` serializes the true-branch block strictly between the
`if`-open line and the `else` line, and the false-branch block strictly
between `else` and `endif`, invoking each deferred block exactly once; a
block that appends `x` (resp. `y`) — as every composition of emitter
primitives does, in call order — contributes exactly `x` (resp. `y`) at
that position, regardless of how many primitive calls compose it. -/
theorem c5_ifElse_nesting (condition : String) (X Y : String → String) (x y s : String)
    (hX : ∀ t, X t = t ++ x) (hY : ∀ t, Y t = t ++ y) :
    add_IfElse condition X Y s =
      s ++ ("if(" ++ condition ++ ")" ++ "\n") ++ x ++ ("else()" ++ "\n") ++ y ++
        ("endif()" ++ "\n") := by
  unfold add_IfElse
  rw [hX, hY]
  simp [String.append_assoc]

/-- Witness for C5: two comment blocks under a concrete condition. -/
theorem c5_ifElse_nesting_witness :
    add_IfElse "MSVC" (add_Comment "a") (add_Comment "b") "start" =
      "start" ++ ("if(" ++ "MSVC" ++ ")" ++ "\n") ++ ("# " ++ "a" ++ "\n") ++
        ("else()" ++ "\n") ++ ("# " ++ "b" ++ "\n") ++ ("endif()" ++ "\n") :=
  c5_ifElse_nesting "MSVC" (add_Comment "a") (add_Comment "b")
    ("# " ++ "a" ++ "\n") ("# " ++ "b" ++ "\n") "start"
    (fun t => by simp [add_Comment, String.append_assoc])
    (fun t => by simp [add_Comment, String.append_assoc])


/-- C8: generation is deterministic — the generators are functions of the
descriptor, registry, discovered sources and filesystem alone, so two
invocations against extensionally equal filesystem states produce
byte-identical contents for each of the three files. -/
theorem c8_generation_deterministic :
    ∀ (p : Project) (files deps : List String) (fs₁ fs₂ : String → Bool),
      (∀ q, fs₁ q = fs₂ q) →
      generateAllFiles p files deps fs₁ = generateAllFiles p files deps fs₂ := by
  intro p files deps fs₁ fs₂ h
  rw [funext h]

/-- Witness for C8 at a concrete descriptor and two syntactically distinct
but extensionally equal filesystems. -/
theorem c8_generation_deterministic_witness :
    generateAllFiles ⟨"P", "3.16", 17, ProjectType.Executable, Configuration.Debug⟩
        ["main.cpp"] ["zlib"] (fun q => q == "P/Dependencies/zlib") =
      generateAllFiles ⟨"P", "3.16", 17, ProjectType.Executable, Configuration.Debug⟩
        ["main.cpp"] ["zlib"] (fun q => (q == "P/Dependencies/zlib") || false) :=
  c8_generation_deterministic _ _ _ _ _
    (fun q => (Bool.or_false (q == "P/Dependencies/zlib")).symm)

/-- C2: for every dependency-mutating command (install-all and install-one
via `HandlePullCommand`, `HandleRemoveCommand`, `HandleSwitchCommand`), if
any external version-control step in the trace exited non-zero then the
handler short-circuited: no registry document was persisted and the
generation workflow was not invoked. -/
theorem c2_failed_step_short_circuits :
    (∀ (args : List String) (pn : String) (deps : List String) (exec : String → Bool),
      (handlePullCommand args pn deps exec).any Effect.isFailedCmd = true →
      (handlePullCommand args pn deps exec).any Effect.isRegistryWrite = false ∧
      (handlePullCommand args pn deps exec).any Effect.isGenerate = false) ∧
    (∀ (args : List String) (pn : String) (deps : List String) (exec : String → Bool),
      (handleRemoveCommand args pn deps exec).any Effect.isFailedCmd = true →
      (handleRemoveCommand args pn deps exec).any Effect.isRegistryWrite = false ∧
      (handleRemoveCommand args pn deps exec).any Effect.isGenerate = false) ∧
    (∀ (args : List String) (pn : String) (exec : String → Bool),
      (handleSwitchCommand args pn exec).any Effect.isFailedCmd = true →
      (handleSwitchCommand args pn exec).any Effect.isRegistryWrite = false ∧
      (handleSwitchCommand args pn exec).any Effect.isGenerate = false) := by
  refine ⟨?_, ?_, ?_⟩
  · intro args pn deps exec h
    unfold handlePullCommand at h ⊢
    dsimp only at h ⊢
    split_ifs at h ⊢ <;>
      simp_all [Effect.isFailedCmd, Effect.isRegistryWrite, Effect.isGenerate, Function.comp]
  · intro args pn deps exec h
    unfold handleRemoveCommand at h ⊢
    dsimp only at h ⊢
    split_ifs at h ⊢ <;>
      simp_all [Effect.isFailedCmd, Effect.isRegistryWrite, Effect.isGenerate]
  · intro args pn exec h
    unfold handleSwitchCommand at h ⊢
    dsimp only at h ⊢
    split_ifs at h ⊢ <;>
      simp_all [Effect.isFailedCmd, Effect.isRegistryWrite, Effect.isGenerate]

/-- Witness for C2: a failing `git submodule add`, a failing `git
submodule deinit` and a failing `git checkout`, each leaving the registry
unwritten and generation uninvoked. -/
theorem c2_failed_step_short_circuits_witness :
    ((handlePullCommand ["https://x/A"] "P" [] (fun _ => false)).any Effect.isRegistryWrite = false ∧
     (handlePullCommand ["https://x/A"] "P" [] (fun _ => false)).any Effect.isGenerate = false) ∧
    ((handleRemoveCommand ["A"] "P" ["A"] (fun _ => false)).any Effect.isRegistryWrite = false ∧
     (handleRemoveCommand ["A"] "P" ["A"] (fun _ => false)).any Effect.isGenerate = false) ∧
    ((handleSwitchCommand ["A", "dev"] "P" (fun _ => false)).any Effect.isRegistryWrite = false ∧
     (handleSwitchCommand ["A", "dev"] "P" (fun _ => false)).any Effect.isGenerate = false) :=
  ⟨c2_failed_step_short_circuits.1 ["https://x/A"] "P" [] (fun _ => false) (by decide),
   c2_failed_step_short_circuits.2.1 ["A"] "P" ["A"] (fun _ => false) (by decide),
   c2_failed_step_short_circuits.2.2 ["A", "dev"] "P" (fun _ => false) (by decide)⟩

/-- C3 counterexample: installing a URL whose repository name is already in
the registry persists a registry document containing that name twice —
`HandlePullCommand` appends with `push_back` and never checks for
presence, so uniqueness is not enforced. -/
theorem c3_duplicate_entry_counterexample :
    registryWrites (handlePullCommand ["https://x/A"] "P" ["A"] (fun _ => true)) =
      [["A", "A"]] ∧
    ¬ (["A", "A"] : List String).Nodup := by
  constructor
  · rfl
  · decide

/-- C3 (amended): a successful install appends the extracted name to the
end of the persisted registry unconditionally, preserving the order of the
existing entries; installing an already-present name therefore creates a
duplicate entry. -/
theorem c3_install_appends_unconditionally (url pn : String) (deps : List String)
    (exec : String → Bool) (hurl : "https://".data.isPrefixOf url.data = true)
    (hpn : pn ≠ "")
    (hexec : exec ("git submodule add " ++ url ++ " " ++
      (pn ++ "/Dependencies/" ++ extractRepositoryName url)) = true) :
    registryWrites (handlePullCommand [url] pn deps exec) =
      [deps ++ [extractRepositoryName url]] := by
  rw [handlePull_success_trace url pn deps exec hurl hpn hexec]
  rfl

/-- Witness for amended C3: installing `A` over a registry already holding
`A` persists `A ++ [A]`. -/
theorem c3_install_appends_unconditionally_witness :
    registryWrites (handlePullCommand ["https://y/A"] "Q" ["A"] (fun _ => true)) =
      [["A"] ++ [extractRepositoryName "https://y/A"]] :=
  c3_install_appends_unconditionally "https://y/A" "Q" ["A"] (fun _ => true)
    (by decide) (by decide) rfl

/-- C1 counterexample: when the project's dependency directory itself does
not exist, `HandleGenerateCommand` skips the missing-dependency check
entirely (`if (std::filesystem::exists(dependenciesPath))`) and writes all
three files even though the declared dependency `A` has no directory on
disk — the generate operation does not abort as the claim states. -/
theorem c1_gate_skipped_counterexample :
    ((handleGenerateCommand true
        ⟨"P", "3.16", 17, ProjectType.Executable, Configuration.Debug⟩
        ["A"] (fun _ => false) []).wroteFiles = true) ∧
    ((fun (_ : String) => false) "P/Dependencies/A" = false) := by
  decide

/-- C1 (amended): when the dependency directory exists and at least one
declared dependency has no directory under it, `generate` aborts before
writing any of the three files and the reported list is exactly the set of
declared names whose directory is absent, in registry order. -/
theorem c1_missing_dependency_gate (p : Project) (deps : List String)
    (fs : String → Bool) (files : List String) (hname : p.name ≠ "")
    (hdir : fs (p.name ++ "/Dependencies") = true)
    (hmiss : ∃ d ∈ deps, fs (p.name ++ "/Dependencies" ++ "/" ++ d) = false) :
    (handleGenerateCommand true p deps fs files =
      GenerateOutcome.missingDeps
        (deps.filter (fun d => !fs (p.name ++ "/Dependencies" ++ "/" ++ d)))) ∧
    ((handleGenerateCommand true p deps fs files).wroteFiles = false) ∧
    (∀ d, d ∈ deps.filter (fun d => !fs (p.name ++ "/Dependencies" ++ "/" ++ d)) ↔
      d ∈ deps ∧ fs (p.name ++ "/Dependencies" ++ "/" ++ d) = false) := by
  obtain ⟨d0, hd0, hfd0⟩ := hmiss
  have hmem : d0 ∈ deps.filter (fun d => !fs (p.name ++ "/Dependencies" ++ "/" ++ d)) :=
    List.mem_filter.mpr ⟨hd0, by simp [hfd0]⟩
  have hne : deps.filter (fun d => !fs (p.name ++ "/Dependencies" ++ "/" ++ d)) ≠ [] :=
    List.ne_nil_of_mem hmem
  have hcond : (deps.filter
      (fun d => !fs (p.name ++ "/Dependencies" ++ "/" ++ d))).isEmpty = false :=
    List.isEmpty_eq_false.mpr hne
  have h1 : handleGenerateCommand true p deps fs files =
      GenerateOutcome.missingDeps
        (deps.filter (fun d => !fs (p.name ++ "/Dependencies" ++ "/" ++ d))) := by
    unfold handleGenerateCommand
    dsimp only
    rw [if_neg (by decide : ¬(true = false)), if_neg hname, if_pos hdir, if_pos hcond]
  refine ⟨h1, by rw [h1]; rfl, ?_⟩
  intro d
  rw [List.mem_filter]
  simp [Bool.not_eq_true']

/-- Witness for amended C1: registry `{A, B}` with only `A` present on
disk aborts generation and reports exactly `B`. -/
theorem c1_missing_dependency_gate_witness :
    (handleGenerateCommand true
        ⟨"P", "3.16", 17, ProjectType.Executable, Configuration.Debug⟩
        ["A", "B"]
        (fun q => (q == "P/Dependencies") || (q == "P/Dependencies/A")) [] =
      GenerateOutcome.missingDeps
        ((["A", "B"] : List String).filter
          (fun d => !(fun q => (q == "P/Dependencies") || (q == "P/Dependencies/A"))
            ("P" ++ "/Dependencies" ++ "/" ++ d)))) ∧
    ((handleGenerateCommand true
        ⟨"P", "3.16", 17, ProjectType.Executable, Configuration.Debug⟩
        ["A", "B"]
        (fun q => (q == "P/Dependencies") || (q == "P/Dependencies/A")) []).wroteFiles
      = false) ∧
    (∀ d, d ∈ (["A", "B"] : List String).filter
          (fun d => !(fun q => (q == "P/Dependencies") || (q == "P/Dependencies/A"))
            ("P" ++ "/Dependencies" ++ "/" ++ d)) ↔
      d ∈ (["A", "B"] : List String) ∧
        (fun q => (q == "P/Dependencies") || (q == "P/Dependencies/A"))
          ("P" ++ "/Dependencies" ++ "/" ++ d) = false) :=
  c1_missing_dependency_gate
    ⟨"P", "3.16", 17, ProjectType.Executable, Configuration.Debug⟩
    ["A", "B"] (fun q => (q == "P/Dependencies") || (q == "P/Dependencies/A")) []
    (by decide) (by decide) (by decide)

/-- `add_Newline 1` appends one newline. -/
theorem add_Newline_one (s : String) : add_Newline 1 s = s ++ "\n" := rfl

/-- `add_Newline 2` appends two newlines. -/
theorem add_Newline_two (s : String) : add_Newline 2 s = s ++ "\n" ++ "\n" := rfl

/-- `add_Indentation 1` appends one tab. -/
theorem add_Indentation_one (s : String) : add_Indentation 1 s = s ++ "\t" := rfl

/-- When a dependency's directory exists, the loop body of
`GenerateDependencyCMakeFiles` emits exactly the enumeration line the spec
describes. -/
theorem depIncludeStep_present (pn : String) (fs : String → Bool) (acc d : String)
    (hd : fs (pn ++ "/Dependencies/" ++ d) = true) :
    depIncludeStep pn fs acc d = claimedIncludeStep pn fs acc d := by
  unfold depIncludeStep claimedIncludeStep
  dsimp only
  rw [if_neg (by simp [hd])]
  cases hInc : fs (pn ++ "/Dependencies/" ++ d ++ "/include") <;>
    simp [hInc, add_Newline_one, add_Indentation_one, add_Literal, String.append_assoc]

/-- When every dependency's directory exists, the emission loop of
`GenerateDependencyCMakeFiles` enumerates every declared dependency. -/
theorem depIncludeLoop_all_present (pn : String) (fs : String → Bool) :
    ∀ (deps : List String) (s : String),
      (∀ d ∈ deps, fs (pn ++ "/Dependencies/" ++ d) = true) →
      depIncludeLoop pn fs deps s = deps.foldl (claimedIncludeStep pn fs) s := by
  intro deps
  induction deps with
  | nil => intro s _; rfl
  | cons d t ih =>
    intro s h
    show List.foldl (depIncludeStep pn fs) (depIncludeStep pn fs s d) t =
      List.foldl (claimedIncludeStep pn fs) (claimedIncludeStep pn fs s d) t
    rw [depIncludeStep_present pn fs s d (h d (List.mem_cons_self _ _))]
    exact ih (claimedIncludeStep pn fs s d) (fun x hx => h x (List.mem_cons_of_mem _ hx))

set_option maxRecDepth 8192 in
/-- C7 counterexample: with one declared dependency `A` whose directory is
absent from the filesystem, the generated dependency-aggregation file
skips `A` in the streaming include block (`continue`), so it differs from
the spec's description, which enumerates each dependency's path. -/
theorem c7_enumeration_counterexample :
    generateDependencyCMakeFiles
        ⟨"P", "3.16", 17, ProjectType.Executable, Configuration.Debug⟩
        ["A"] (fun _ => false) ≠
      claimedDependencyCMakeFiles
        ⟨"P", "3.16", 17, ProjectType.Executable, Configuration.Debug⟩
        ["A"] (fun _ => false) := by
  decide

/-- C7 (amended): the dependency-aggregation file carries one
subdirectory-inclusion directive per declared dependency followed by a
single streaming include-directory block; the block enumerates each
dependency whose directory exists on disk (dependencies with no directory
are skipped), appending `/include` exactly when the include subdirectory
exists; in particular when every declared dependency's directory exists
the file equals the spec's description. -/
theorem c7_dependency_aggregation (p : Project) (deps : List String) (fs : String → Bool)
    (hne : deps ≠ [])
    (hall : ∀ d ∈ deps, fs (p.name ++ "/Dependencies/" ++ d) = true) :
    generateDependencyCMakeFiles p deps fs = claimedDependencyCMakeFiles p deps fs := by
  unfold generateDependencyCMakeFiles claimedDependencyCMakeFiles
  dsimp only
  have hbe : ¬(deps.isEmpty = true) := by simp [hne]
  rw [if_neg hbe, if_neg hbe]
  rw [depIncludeLoop_all_present p.name fs deps _ hall]

/-- Witness for amended C7: one dependency present on disk with an include
subdirectory, one present without. -/
theorem c7_dependency_aggregation_witness :
    generateDependencyCMakeFiles
        ⟨"P", "3.16", 17, ProjectType.Executable, Configuration.Debug⟩ ["A", "B"]
        (fun q => (q == "P/Dependencies/A") || (q == "P/Dependencies/B") ||
          (q == "P/Dependencies/A/include")) =
      claimedDependencyCMakeFiles
        ⟨"P", "3.16", 17, ProjectType.Executable, Configuration.Debug⟩ ["A", "B"]
        (fun q => (q == "P/Dependencies/A") || (q == "P/Dependencies/B") ||
          (q == "P/Dependencies/A/include")) :=
  c7_dependency_aggregation
    ⟨"P", "3.16", 17, ProjectType.Executable, Configuration.Debug⟩ ["A", "B"]
    (fun q => (q == "P/Dependencies/A") || (q == "P/Dependencies/B") ||
      (q == "P/Dependencies/A/include"))
    (by decide) (by decide)


/-- C6: for a `StaticLibrary` descriptor and a non-empty discovered list,
the source-target file is the pre-part, then a single `add_library`
declaration naming the library-kind string and serializing the discovered
list, then the post-part; tokenizing the declaration's argument region
recovers the target name, the kind `StaticLibrary`, and every discovered
file exactly once, in discovery order. -/
theorem c6_static_library_target (p : Project) (files dependencies : List String)
    (htype : p.type = ProjectType.StaticLibrary) (hne : files ≠ [])
    (hname : p.name.data ≠ [] ∧ ∀ a ∈ p.name.data, a ≠ spaceChar)
    (hfiles : ∀ f ∈ files, f.data ≠ [] ∧ ∀ a ∈ f.data, a ≠ spaceChar) :
    (generateCMakeFiles p files dependencies =
      sourceTargetPre p ++
        ("add_library(" ++ p.name ++ " " ++ p.type.typeString ++ spaceJoin files ++
          ")" ++ "\n") ++
        sourceTargetPost p dependencies) ∧
    (p.type.typeString = "StaticLibrary") ∧
    (tokenize (p.name ++ " " ++ p.type.typeString ++ spaceJoin files).data =
      p.name.data :: ("StaticLibrary" : String).data :: files.map String.data) := by
  have hkindstr : p.type.typeString = "StaticLibrary" := by
    rw [htype]
    rfl
  refine ⟨?_, hkindstr, ?_⟩
  · unfold generateCMakeFiles sourceTargetPre sourceTargetPost
    dsimp only
    rw [htype]
    rw [if_neg (by decide : ¬(ProjectType.StaticLibrary = ProjectType.Executable))]
    cases hdeps : dependencies.isEmpty <;>
    · simp [hdeps, add_Header, add_CmakeMinimumRequired, add_Project,
        add_SetCmakeCxxStandard, add_AddLibrary, add_Newline_one, add_Newline_two,
        add_Comment, add_IfElse, add_SetTargetProperties, add_TargetLinkLibraries,
        ProjectType.typeString, String.append_assoc]
      rw [← String.append_assoc (")\n" : String)]
      rw [← String.append_assoc (")\n" : String)]
      simp [String.append_assoc]
  · rw [hkindstr]
    exact tokenize_libraryArgs p.name "StaticLibrary" files hname (by decide) hfiles

/-- Witness for C6 at a concrete static-library descriptor with two
discovered source files. -/
theorem c6_static_library_target_witness :
    (generateCMakeFiles ⟨"App", "3.16", 17, ProjectType.StaticLibrary, Configuration.Debug⟩
        ["main.cpp", "util.h"] ["zlib"] =
      sourceTargetPre ⟨"App", "3.16", 17, ProjectType.StaticLibrary, Configuration.Debug⟩ ++
        ("add_library(" ++ "App" ++ " " ++
          (ProjectType.StaticLibrary).typeString ++ spaceJoin ["main.cpp", "util.h"] ++
          ")" ++ "\n") ++
        sourceTargetPost ⟨"App", "3.16", 17, ProjectType.StaticLibrary, Configuration.Debug⟩
          ["zlib"]) ∧
    ((ProjectType.StaticLibrary).typeString = "StaticLibrary") ∧
    (tokenize ("App" ++ " " ++ (ProjectType.StaticLibrary).typeString ++
        spaceJoin ["main.cpp", "util.h"]).data =
      ("App" : String).data :: ("StaticLibrary" : String).data ::
        (["main.cpp", "util.h"] : List String).map String.data) :=
  c6_static_library_target
    ⟨"App", "3.16", 17, ProjectType.StaticLibrary, Configuration.Debug⟩
    ["main.cpp", "util.h"] ["zlib"] rfl (by decide) (by decide) (by decide)

end Magnet
